import Mathlib

/-!
Verification development for the local-document management system
(`model.py` + `app_source/app.py`): a shallow embedding of the relational
state and of the query/mutation layer, with theorems settling the
specification's claims about search, favorites, progress clamping,
document CRUD, note ownership, registration and resource counting.

Tables are embedded as Lean lists of rows; SQL sessions become explicit
state passing on a `DB` value.  Machine integers are `Nat`/`Int` (the ids
and counts involved never approach overflow in the source's schema).
Column names follow the source; the fields of the `annotation` table are
embedded with a `note_` spelling of the same columns.
-/

namespace DocDB

/-- Row of table `user_info` (class `User` in model.py). -/
structure UserRow where
  user_id : Nat
  username : String
  user_email : String
  password : String
  pr_question : String
  pr_answer : String
  deriving DecidableEq

/-- Row of table `document_info` (class `Document` in model.py).
`document_region` and `document_intro` are nullable columns. -/
structure DocumentRow where
  document_id : Nat
  document_name : String
  document_region : Option String
  document_intro : Option String
  deriving DecidableEq

/-- Row of table `resource_content` (class `Resource` in model.py).
The three text columns are nullable. -/
structure ResourceRow where
  resource_id : Nat
  document_id : Nat
  resource_name : String
  resource_type : Option String
  original_text : Option String
  simplified_text : Option String
  vernacular_translation : Option String
  deriving DecidableEq

/-- Row of the user-note table (class `Note` in model.py); the source column
names carry the table's name as a spelling, embedded here as `note_*`:
`note_id`, `note_content`, `note_tags`, `note_time` are the id, content,
tags and creation-time columns of that table. -/
structure NoteRow where
  note_id : Nat
  user_id : Nat
  resource_id : Nat
  note_content : String
  note_tags : String
  note_time : Nat
  update_time : Nat
  deriving DecidableEq

/-- Row of table `collection_info` (class `Favorite` in model.py). -/
structure FavoriteRow where
  collection_id : Nat
  user_id : Nat
  resource_id : Nat
  collection_tags : String
  collection_time : Nat
  deriving DecidableEq

/-- Modelled from the spec: the `AccessRecord` entity (reading-progress
marker) is imported by app.py from model but absent from src/model.py;
its attributes are taken from the spec's data model (id, user_id,
resource_id, progress in [0,100], accessed_at) and from the attribute
names used at the call sites in app.py (`access_id`, `read_progress`,
`access_time`). -/
structure AccessRecordRow where
  access_id : Nat
  user_id : Nat
  resource_id : Nat
  read_progress : Int
  access_time : Nat
  deriving DecidableEq

/-- The database state: one list per table, an autoincrement counter
(`next_id`, fresh ids for inserted rows) and the current clock value
(`now`, the value `NOW()` / `datetime.utcnow` would produce). -/
structure DB where
  users : List UserRow
  documents : List DocumentRow
  resources : List ResourceRow
  notes : List NoteRow
  favorites : List FavoriteRow
  access_records : List AccessRecordRow
  next_id : Nat
  now : Nat
  deriving DecidableEq

/-- Python's `str.strip()`: drop whitespace from both ends. -/
def pyStrip (s : String) : String :=
  ⟨((s.data.dropWhile Char.isWhitespace).reverse.dropWhile Char.isWhitespace).reverse⟩

/-- Substring containment on character lists: `pat` occurs contiguously
inside `s`. -/
def listContains (s pat : List Char) : Bool :=
  (List.range (s.length + 1)).any (fun i => pat.isPrefixOf (s.drop i))

/-- SQL `col LIKE '%kw%'` on a nullable column, for a keyword without
wildcard characters: NULL matches nothing, otherwise substring
containment. -/
def likeContains (col : Option String) (kw : String) : Bool :=
  match col with
  | none => false
  | some s => listContains s.data kw.data

/-- SQLAlchemy `col.ilike('%kw%')` on a nullable column, for a keyword
without wildcard characters: case-insensitive substring containment
(`Char.toLower` folds the cased letters), NULL matches nothing. -/
def ilikeContains (col : Option String) (kw : String) : Bool :=
  match col with
  | none => false
  | some s => listContains (s.data.map Char.toLower) (kw.data.map Char.toLower)

/-- model.py `search_transcription_by_keyword`: resources whose
`simplified_text` or `vernacular_translation` matches `ILIKE '%keyword%'`.
(The `original_text` column is not part of the filter.) -/
def search_transcription_by_keyword (db : DB) (keyword : String) : List ResourceRow :=
  db.resources.filter (fun r =>
    ilikeContains r.simplified_text keyword || ilikeContains r.vernacular_translation keyword)

/-- model.py `count_resources_by_document`: `COUNT(resource_id)` filtered on
`document_id`, with Python's `scalar() or 0` defaulting falsy results to 0. -/
def count_resources_by_document (db : DB) (document_id : Nat) : Int :=
  if ((db.resources.filter (fun r => r.document_id == document_id)).length : Int) = 0 then 0
  else ((db.resources.filter (fun r => r.document_id == document_id)).length : Int)

/-- Failure raised by a `session.commit()` that violates a schema
constraint (the `unique=True` columns declared in model.py). -/
inductive DbErr where
  | conflict
  deriving DecidableEq

/-- model.py `create_document`: insert a new document row and return it;
the commit enforces the `UNIQUE(document_name)` constraint declared on
`document_info`, raising on a duplicate name. -/
def create_document (db : DB) (name : String) (region intro : Option String) :
    Except DbErr (DB × DocumentRow) :=
  if db.documents.any (fun d => d.document_name == name) then
    .error .conflict
  else
    let doc : DocumentRow :=
      { document_id := db.next_id, document_name := name,
        document_region := region, document_intro := intro }
    .ok ({ db with documents := db.documents ++ [doc], next_id := db.next_id + 1 }, doc)

/-- model.py `get_document_by_id`: `session.get(Document, document_id)`,
lookup by primary key. -/
def get_document_by_id (db : DB) (document_id : Nat) : Option DocumentRow :=
  db.documents.find? (fun d => d.document_id == document_id)

/-- The field overwrites performed by model.py `update_document`: a field
whose argument is `None` keeps its stored value, a supplied field is
overwritten. -/
def applyDocUpdate (doc : DocumentRow) (name region intro : Option String) : DocumentRow :=
  { doc with
    document_name := name.getD doc.document_name,
    document_region := match region with | some r => some r | none => doc.document_region,
    document_intro := match intro with | some i => some i | none => doc.document_intro }

/-- model.py `update_document`: fetch by primary key (returning `none`
with the state untouched when the id is absent), overwrite exactly the
fields whose argument is not `None` (`applyDocUpdate`), and commit; the
commit enforces `UNIQUE(document_name)` against the other rows. -/
def update_document (db : DB) (document_id : Nat)
    (name region intro : Option String) : Except DbErr (DB × Option DocumentRow) :=
  match db.documents.find? (fun d => d.document_id == document_id) with
  | none => .ok (db, none)
  | some doc =>
    if db.documents.any (fun d => !(d.document_id == document_id) && d.document_name == (applyDocUpdate doc name region intro).document_name) then
      .error .conflict
    else
      .ok ({ db with documents := db.documents.map (fun d => if d.document_id == document_id then applyDocUpdate doc name region intro else d) }, some (applyDocUpdate doc name region intro))

/-- model.py `delete_document`: fetch by primary key, return `false` when
absent, otherwise delete the row and return `true`; the dependent
resource rows and their note/favorite/access rows go with it (the
foreign keys' `ON DELETE CASCADE`, as the source's docstring records). -/
def delete_document (db : DB) (document_id : Nat) : DB × Bool :=
  match db.documents.find? (fun d => d.document_id == document_id) with
  | none => (db, false)
  | some _ =>
    let removedIds := (db.resources.filter (fun r => r.document_id == document_id)).map
      (fun r => r.resource_id)
    ({ db with
       documents := db.documents.filter (fun d => !(d.document_id == document_id)),
       resources := db.resources.filter (fun r => !(r.document_id == document_id)),
       notes := db.notes.filter (fun n => !(removedIds.contains n.resource_id)),
       favorites := db.favorites.filter (fun f => !(removedIds.contains f.resource_id)),
       access_records := db.access_records.filter (fun a => !(removedIds.contains a.resource_id)) },
     true)

/-- Modelled from the spec: `is_resource_favorited` is imported by app.py
from model but absent from src/model.py.  Per the spec's favorite-state
reads it reports whether a Favorite row exists for the
(user, resource) pair. -/
def is_resource_favorited (db : DB) (user_id resource_id : Nat) : Bool :=
  db.favorites.any (fun f => f.user_id == user_id && f.resource_id == resource_id)

/-- Modelled from the spec: `toggle_favorite` is imported by app.py from
model but absent from src/model.py.  Per spec §4.1 it inserts a Favorite
if absent or deletes it if present, given (user, resource, optional
tags), and returns the resulting favorited-state; the call site in
app.py unpacks `(success, favorited)`, and the success flag is `True`
on the non-exceptional path embedded here, so only the favorited
boolean is returned. -/
def toggle_favorite (db : DB) (user_id resource_id : Nat) (tags : String) : DB × Bool :=
  if is_resource_favorited db user_id resource_id then
    let favs' := db.favorites.filter
      (fun f => !(f.user_id == user_id && f.resource_id == resource_id))
    ({ db with favorites := favs' }, false)
  else
    let fav : FavoriteRow :=
      { collection_id := db.next_id, user_id := user_id, resource_id := resource_id,
        collection_tags := tags, collection_time := db.now }
    ({ db with favorites := db.favorites ++ [fav], next_id := db.next_id + 1 }, true)

/-- Modelled from the spec: `create_access_record` is imported by app.py
from model but absent from src/model.py.  Per spec §4.1 (access-record
upsert) it creates the record on first access for the (user, resource)
pair and updates progress and timestamp on subsequent accesses. -/
def create_access_record (db : DB) (user_id resource_id : Nat) (progress : Int) : DB :=
  if db.access_records.any (fun a => a.user_id == user_id && a.resource_id == resource_id) then
    let recs' := db.access_records.map (fun a =>
      if a.user_id == user_id && a.resource_id == resource_id then
        { a with read_progress := progress, access_time := db.now }
      else a)
    { db with access_records := recs' }
  else
    let rec0 : AccessRecordRow :=
      { access_id := db.next_id, user_id := user_id, resource_id := resource_id,
        read_progress := progress, access_time := db.now }
    { db with access_records := db.access_records ++ [rec0], next_id := db.next_id + 1 }

/-- Modelled from the spec: `update_note` is imported by app.py from model
but absent from src/model.py.  Per the spec's Note lifecycle it
overwrites the note's content and tags in place and refreshes the
server-side `updated_at` timestamp. -/
def update_note (db : DB) (note_id : Nat) (content tags : String) : DB :=
  let notes' := db.notes.map (fun n =>
    if n.note_id == note_id then
      { n with note_content := content, note_tags := tags, update_time := db.now }
    else n)
  { db with notes := notes' }

/-- Modelled from the spec: `delete_note` is imported by app.py from model
but absent from src/model.py.  Per the spec's Note lifecycle it removes
the note row with the given id. -/
def delete_note (db : DB) (note_id : Nat) : DB :=
  { db with notes := db.notes.filter (fun n => !(n.note_id == note_id)) }

/-- Outcome flashed or returned by a request handler in app.py: the
validation-message branches, the duplicate branches, the 403
not-found-or-not-owner branch, the 400 bad-request branch, the
success branch and the generic exception branch. -/
inductive Resp where
  | validationError
  | conflict
  | forbidden403
  | badRequest400
  | success
  | serverError
  deriving DecidableEq

/-- app.py `register` (POST branch): strip the six form fields, reject
blank username/email/password, mismatched or short (< 6 characters)
passwords, duplicate username or email, then insert the new user with
the hashed password.  Hashing is the external `generate_password_hash`
collaborator, embedded abstractly as a tagging function. -/
def generate_password_hash (p : String) : String :=
  "pbkdf2-sha256$" ++ p

/-- app.py `register`, POST branch, on an embedded `DB`; returns the state
and the flashed outcome. -/
def register (db : DB) (usernameF emailF passwordF password2F prqF praF : String) :
    DB × Resp :=
  if pyStrip usernameF == "" || pyStrip emailF == "" || pyStrip passwordF == "" then
    (db, .validationError)
  else if !(pyStrip passwordF == pyStrip password2F) then (db, .validationError)
  else if (pyStrip passwordF).data.length < 6 then (db, .validationError)
  else if db.users.any (fun u => u.username == pyStrip usernameF) then (db, .conflict)
  else if db.users.any (fun u => u.user_email == pyStrip emailF) then (db, .conflict)
  else
    ({ db with
        users := db.users ++
          [{ user_id := db.next_id, username := pyStrip usernameF,
             user_email := pyStrip emailF,
             password := generate_password_hash (pyStrip passwordF),
             pr_question := pyStrip prqF, pr_answer := pyStrip praF }],
        next_id := db.next_id + 1 }, .success)

/-- app.py `add_document` (POST branch): strip the three form fields,
reject a blank name, reject a duplicate name (pre-check before the
insert), then call model.py `create_document`; the handler passes the
stripped region and intro strings through as-is. -/
def add_document (db : DB) (nameF regionF introF : String) : DB × Resp :=
  if pyStrip nameF == "" then (db, .validationError)
  else if db.documents.any (fun d => d.document_name == pyStrip nameF) then (db, .conflict)
  else
    match create_document db (pyStrip nameF) (some (pyStrip regionF)) (some (pyStrip introF)) with
    | .ok (db', _) => (db', .success)
    | .error _ => (db, .serverError)

/-- app.py `edit_note` (POST): strip content and tags, reject blank
content with 400, then fetch the note; a missing note and a note owned
by another user both take the same 403 branch
(`if not note or note.user_id != current_user.user_id`); otherwise the
note is updated via `update_note`. -/
def edit_note (db : DB) (current_user_id note_id : Nat) (contentF tagsF : String) :
    DB × Resp :=
  if pyStrip contentF == "" then (db, .badRequest400)
  else
    match db.notes.find? (fun n => n.note_id == note_id) with
    | none => (db, .forbidden403)
    | some note =>
      if !(note.user_id == current_user_id) then (db, .forbidden403)
      else (update_note db note_id (pyStrip contentF) (pyStrip tagsF), .success)

/-- app.py `remove_note` (POST): fetch the note; a missing note and a note
owned by another user both take the same 403 branch; otherwise the note
is deleted via `delete_note`. -/
def remove_note (db : DB) (current_user_id note_id : Nat) : DB × Resp :=
  match db.notes.find? (fun n => n.note_id == note_id) with
  | none => (db, .forbidden403)
  | some note =>
    if !(note.user_id == current_user_id) then (db, .forbidden403)
    else (delete_note db note_id, .success)

/-- app.py `record_read_progress`: the clamp applied to the submitted
progress value, `max(0, min(100, progress))`. -/
def clampProgress (p : Int) : Int :=
  max 0 (min 100 p)

/-- app.py `record_read_progress` (POST, after the integer parse): clamp
the submitted progress to [0, 100] and upsert the access record for
(current user, resource). -/
def record_read_progress (db : DB) (current_user_id resource_id : Nat) (progress : Int) : DB :=
  create_access_record db current_user_id resource_id (clampProgress progress)

/-- Predicate written from the spec's words for the search claim: the
resource's `original_text`, `simplified_text` or
`vernacular_translation` contains the keyword as a substring.  Kept as
a second definition, to be compared with the source-derived
`search_transcription_by_keyword`. -/
def specKeywordMatches (r : ResourceRow) (keyword : String) : Bool :=
  likeContains r.original_text keyword
    || likeContains r.simplified_text keyword
    || likeContains r.vernacular_translation keyword

/-- Empty database state, the state right after `db.sql` creates the
tables. -/
def db0 : DB :=
  { users := [], documents := [], resources := [], notes := [], favorites := [],
    access_records := [], next_id := 1, now := 0 }

/-- Concrete document row used in the update/delete scenarios. -/
def docRow1 : DocumentRow :=
  { document_id := 1, document_name := "d1", document_region := some "r", document_intro := some "i" }

/-- Database holding exactly `docRow1`. -/
def dbDoc : DB :=
  { users := [], documents := [docRow1], resources := [], notes := [], favorites := [],
    access_records := [], next_id := 2, now := 0 }

/-- The row of `dbDoc` after updating only its region to `R`. -/
def docRow1R : DocumentRow := applyDocUpdate docRow1 none (some "R") none

/-- The state of `dbDoc` after updating only the region of document 1. -/
def dbDocR : DB :=
  { users := [], documents := [docRow1R], resources := [], notes := [], favorites := [],
    access_records := [], next_id := 2, now := 0 }

/-- Resource whose only populated text column is `original_text`. -/
def resOrigOnly : ResourceRow :=
  { resource_id := 1, document_id := 1, resource_name := "r1", resource_type := none,
    original_text := some "abc", simplified_text := none, vernacular_translation := none }

/-- Database holding exactly `resOrigOnly`. -/
def dbOrigOnly : DB :=
  { users := [], documents := [docRow1], resources := [resOrigOnly], notes := [],
    favorites := [], access_records := [], next_id := 2, now := 0 }

/-- Resource whose `simplified_text` is populated. -/
def resSimpl : ResourceRow :=
  { resource_id := 2, document_id := 1, resource_name := "r2", resource_type := none,
    original_text := none, simplified_text := some "hello world", vernacular_translation := none }

/-- Database holding exactly `resSimpl`. -/
def dbSimpl : DB :=
  { users := [], documents := [docRow1], resources := [resSimpl], notes := [],
    favorites := [], access_records := [], next_id := 3, now := 0 }

/-- Concrete note row owned by user 1. -/
def noteRow1 : NoteRow :=
  { note_id := 1, user_id := 1, resource_id := 1, note_content := "c0", note_tags := "",
    note_time := 0, update_time := 0 }

/-- Database holding exactly `noteRow1`. -/
def dbNote : DB :=
  { users := [], documents := [docRow1], resources := [resOrigOnly], notes := [noteRow1],
    favorites := [], access_records := [], next_id := 2, now := 5 }

/-- Mapping characters preserves `isPrefixOf`. -/
theorem isPrefixOf_map (f : Char → Char) :
    ∀ (p s : List Char), p.isPrefixOf s = true → (p.map f).isPrefixOf (s.map f) = true := by
  intro p
  induction p with
  | nil => intro s _; simp [List.isPrefixOf]
  | cons a as ih =>
    intro s h
    cases s with
    | nil => simp [List.isPrefixOf] at h
    | cons b bs =>
      simp only [List.map_cons, List.isPrefixOf, Bool.and_eq_true] at h ⊢
      refine ⟨?_, ih bs h.2⟩
      have hab : a = b := by have := h.1; rwa [beq_iff_eq] at this
      rw [hab, beq_iff_eq]

/-- Mapping characters preserves substring containment. -/
theorem listContains_map (f : Char → Char) (s p : List Char)
    (h : listContains s p = true) : listContains (s.map f) (p.map f) = true := by
  unfold listContains at h ⊢
  rw [List.any_eq_true] at h ⊢
  obtain ⟨i, hi, hp⟩ := h
  refine ⟨i, ?_, ?_⟩
  · simpa using hi
  · rw [← List.map_drop]
    exact isPrefixOf_map f p (s.drop i) hp

/-- Case-sensitive containment implies the case-insensitive `ILIKE`
containment used by the source's filter. -/
theorem likeContains_ilikeContains (col : Option String) (kw : String)
    (h : likeContains col kw = true) : ilikeContains col kw = true := by
  cases col with
  | none => simp [likeContains] at h
  | some s =>
    simp only [likeContains] at h
    simp only [ilikeContains]
    exact listContains_map Char.toLower s.data kw.data h

/-- Claim C1 fails as stated: `resOrigOnly` holds the keyword `b` in its
`original_text` column, so the claim requires it in the search result,
but `search_transcription_by_keyword` (which filters only on
`simplified_text` and `vernacular_translation`) returns the empty
list on `dbOrigOnly`. -/
theorem C1_counterexample :
    resOrigOnly ∈ dbOrigOnly.resources
    ∧ specKeywordMatches resOrigOnly "b" = true
    ∧ search_transcription_by_keyword dbOrigOnly "b" = [] := by
  decide

/-- Claim C1 (amended): the keyword search returns exactly the resources
whose `simplified_text` or `vernacular_translation` contains the keyword
case-insensitively — `original_text` is not searched; a keyword present
in some resource's `simplified_text` yields that resource, and a keyword
present in no text column of any resource yields the empty list. -/
theorem C1_search_exact (db : DB) (kw : String) :
    (∀ r : ResourceRow, r ∈ search_transcription_by_keyword db kw ↔
        (r ∈ db.resources ∧
          (ilikeContains r.simplified_text kw = true
            ∨ ilikeContains r.vernacular_translation kw = true)))
    ∧ (∀ r ∈ db.resources, likeContains r.simplified_text kw = true →
        r ∈ search_transcription_by_keyword db kw)
    ∧ ((∀ r ∈ db.resources, ilikeContains r.original_text kw = false
          ∧ ilikeContains r.simplified_text kw = false
          ∧ ilikeContains r.vernacular_translation kw = false) →
        search_transcription_by_keyword db kw = []) := by
  refine ⟨?_, ?_, ?_⟩
  · intro r
    simp [search_transcription_by_keyword, List.mem_filter, Bool.or_eq_true]
  · intro r hr h
    rw [search_transcription_by_keyword, List.mem_filter]
    refine ⟨hr, ?_⟩
    rw [Bool.or_eq_true]
    exact Or.inl (likeContains_ilikeContains _ _ h)
  · intro h
    rw [search_transcription_by_keyword, List.filter_eq_nil_iff]
    intro r hr
    rcases h r hr with ⟨_, hs, hv⟩
    simp [hs, hv]

/-- Concrete run of the amended search claim: the keyword `lo wo` occurs in
`resSimpl`'s simplified text, and the search over `dbSimpl` finds it;
no text column of `dbOrigOnly` holds `zz`, and that search is empty. -/
theorem C1_search_witness :
    resSimpl ∈ search_transcription_by_keyword dbSimpl "lo wo"
    ∧ search_transcription_by_keyword dbOrigOnly "zz" = [] :=
  ⟨(C1_search_exact dbSimpl "lo wo").2.1 resSimpl (by decide) (by decide),
   (C1_search_exact dbOrigOnly "zz").2.2 (by decide)⟩

/-- The boolean returned by the toggle is the negation of the prior
favorited-state. -/
theorem toggle_favorite_snd (db : DB) (uid rid : Nat) (tags : String) :
    (toggle_favorite db uid rid tags).2 = !(is_resource_favorited db uid rid) := by
  cases h : is_resource_favorited db uid rid <;> simp [toggle_favorite, h]

/-- Filtering a list down to the elements failing `p` leaves nothing
satisfying `p`. -/
theorem any_filter_not_self {α : Type} (l : List α) (p : α → Bool) :
    (l.filter (fun x => !(p x))).any p = false := by
  rw [Bool.eq_false_iff]
  intro hc
  rw [List.any_eq_true] at hc
  obtain ⟨x, hx, hpx⟩ := hc
  rw [List.mem_filter] at hx
  simp [hpx] at hx

/-- The favorited-state after a toggle is the negation of the state before
it. -/
theorem is_favorited_after_toggle (db : DB) (uid rid : Nat) (tags : String) :
    is_resource_favorited (toggle_favorite db uid rid tags).1 uid rid
      = !(is_resource_favorited db uid rid) := by
  cases h : is_resource_favorited db uid rid with
  | true =>
    simp only [is_resource_favorited] at h
    simp only [toggle_favorite, is_resource_favorited, h, if_true]
    exact any_filter_not_self db.favorites _
  | false =>
    simp only [is_resource_favorited] at h
    simp only [toggle_favorite, is_resource_favorited, h, Bool.false_eq_true, if_false,
      Bool.not_false]
    rw [List.any_append]
    simp [h]

/-- Claim C2: the toggle returns the negated favorited-state as the
resulting boolean; if no Favorite row exists for the pair one is
inserted; if one exists the pair's rows are deleted; and two toggles in
sequence return the pair's favorited-state to its original value. -/
theorem C2_toggle_favorite (db : DB) (uid rid : Nat) (tags tags2 : String) :
    ((toggle_favorite db uid rid tags).2 = !(is_resource_favorited db uid rid))
    ∧ (is_resource_favorited db uid rid = false →
        ∃ fav : FavoriteRow, fav.user_id = uid ∧ fav.resource_id = rid ∧
          (toggle_favorite db uid rid tags).1.favorites = db.favorites ++ [fav])
    ∧ (is_resource_favorited db uid rid = true →
        (toggle_favorite db uid rid tags).1.favorites
          = db.favorites.filter (fun f => !(f.user_id == uid && f.resource_id == rid)))
    ∧ is_resource_favorited
        (toggle_favorite (toggle_favorite db uid rid tags).1 uid rid tags2).1 uid rid
      = is_resource_favorited db uid rid := by
  refine ⟨toggle_favorite_snd db uid rid tags, ?_, ?_, ?_⟩
  · intro h
    refine ⟨{ collection_id := db.next_id, user_id := uid, resource_id := rid,
              collection_tags := tags, collection_time := db.now }, rfl, rfl, ?_⟩
    simp [toggle_favorite, h]
  · intro h
    simp [toggle_favorite, h]
  · rw [is_favorited_after_toggle, is_favorited_after_toggle, Bool.not_not]

/-- Concrete run of the toggle claim on the empty database: toggling
(user 1, resource 2) twice restores the unfavorited state, and the
first toggle inserts a row. -/
theorem C2_toggle_witness :
    is_resource_favorited
        (toggle_favorite (toggle_favorite db0 1 2 "t").1 1 2 "t").1 1 2
      = is_resource_favorited db0 1 2
    ∧ ∃ fav : FavoriteRow, fav.user_id = 1 ∧ fav.resource_id = 2 ∧
        (toggle_favorite db0 1 2 "t").1.favorites = db0.favorites ++ [fav] :=
  ⟨(C2_toggle_favorite db0 1 2 "t" "t").2.2.2,
   (C2_toggle_favorite db0 1 2 "t" "t").2.1 (by decide)⟩

/-- The clamp never goes below 0. -/
theorem clampProgress_nonneg (p : Int) : 0 ≤ clampProgress p := le_max_left 0 _

/-- The clamp never exceeds 100. -/
theorem clampProgress_le_100 (p : Int) : clampProgress p ≤ 100 :=
  max_le (by norm_num) (min_le_left 100 p)

/-- Claim C3: the progress value stored for the acting (user, resource)
pair equals `max(0, min(100, p))`; 150 clamps to 100 and -10 clamps
to 0; and when every stored progress lies in [0, 100] beforehand, every
stored progress still does so after recording. -/
theorem C3_record_progress (db : DB) (uid rid : Nat) (p : Int)
    (hinv : ∀ a ∈ db.access_records, 0 ≤ a.read_progress ∧ a.read_progress ≤ 100) :
    (∀ a ∈ (record_read_progress db uid rid p).access_records,
        a.user_id = uid → a.resource_id = rid → a.read_progress = clampProgress p)
    ∧ clampProgress 150 = 100 ∧ clampProgress (-10) = 0
    ∧ (∀ a ∈ (record_read_progress db uid rid p).access_records,
        0 ≤ a.read_progress ∧ a.read_progress ≤ 100) := by
  have h150 : clampProgress 150 = 100 := by
    rw [clampProgress]; norm_num
  have hneg : clampProgress (-10) = 0 := by
    rw [clampProgress]; norm_num
  refine ⟨?_, h150, hneg, ?_⟩
  · intro a ha hu hr
    rw [record_read_progress, create_access_record] at ha
    by_cases h : db.access_records.any (fun b => b.user_id == uid && b.resource_id == rid) = true
    · rw [if_pos h] at ha
      rw [List.mem_map] at ha
      obtain ⟨b, hb, hfb⟩ := ha
      by_cases hm : (b.user_id == uid && b.resource_id == rid) = true
      · rw [if_pos hm] at hfb
        rw [← hfb]
      · rw [if_neg hm] at hfb
        exfalso
        apply hm
        rw [hfb, Bool.and_eq_true, beq_iff_eq, beq_iff_eq]
        exact ⟨hu, hr⟩
    · rw [if_neg h] at ha
      rw [List.mem_append] at ha
      rcases ha with ha | ha
      · exfalso
        apply h
        rw [List.any_eq_true]
        refine ⟨a, ha, ?_⟩
        rw [Bool.and_eq_true, beq_iff_eq, beq_iff_eq]
        exact ⟨hu, hr⟩
      · rw [List.mem_singleton] at ha
        rw [ha]
  · intro a ha
    rw [record_read_progress, create_access_record] at ha
    by_cases h : db.access_records.any (fun b => b.user_id == uid && b.resource_id == rid) = true
    · rw [if_pos h] at ha
      rw [List.mem_map] at ha
      obtain ⟨b, hb, hfb⟩ := ha
      by_cases hm : (b.user_id == uid && b.resource_id == rid) = true
      · rw [if_pos hm] at hfb
        rw [← hfb]
        exact ⟨clampProgress_nonneg p, clampProgress_le_100 p⟩
      · rw [if_neg hm] at hfb
        rw [← hfb]
        exact hinv b hb
    · rw [if_neg h] at ha
      rw [List.mem_append] at ha
      rcases ha with ha | ha
      · exact hinv a ha
      · rw [List.mem_singleton] at ha
        rw [ha]
        exact ⟨clampProgress_nonneg p, clampProgress_le_100 p⟩

/-- Concrete run of the progress claim: recording 150 on the empty
database stores a value within bounds, and the clamp sends 150 to
100. -/
theorem C3_record_witness :
    (∀ a ∈ (record_read_progress db0 1 2 150).access_records,
        0 ≤ a.read_progress ∧ a.read_progress ≤ 100)
    ∧ clampProgress 150 = 100 :=
  ⟨(C3_record_progress db0 1 2 150 (by simp [db0])).2.2.2,
   (C3_record_progress db0 1 2 150 (by simp [db0])).2.1⟩

/-- Claim C4: creating a document whose name is not already taken (a valid
input, given the unique-name constraint) and then reading the new
document's id back returns a document carrying exactly the field values
passed to `create_document`.  The freshness hypothesis is the
autoincrement invariant: every stored id is below the counter. -/
theorem C4_create_then_get (db : DB) (name : String) (region intro : Option String)
    (hfresh : ∀ d ∈ db.documents, d.document_id < db.next_id)
    (hname : db.documents.any (fun d => d.document_name == name) = false) :
    ∃ db' doc, create_document db name region intro = Except.ok (db', doc)
      ∧ doc.document_name = name ∧ doc.document_region = region
      ∧ doc.document_intro = intro
      ∧ get_document_by_id db' doc.document_id = some doc := by
  have hcond : ¬ (db.documents.any (fun d => d.document_name == name) = true) := by
    rw [hname]; exact Bool.false_ne_true
  rw [create_document, if_neg hcond]
  refine ⟨_, _, rfl, rfl, rfl, rfl, ?_⟩
  rw [get_document_by_id, List.find?_append]
  have h1 : db.documents.find? (fun d => d.document_id == db.next_id) = none := by
    rw [List.find?_eq_none]
    intro d hd
    have hlt := hfresh d hd
    simp only [beq_iff_eq]
    omega
  rw [h1]
  simp

/-- Concrete run of the create-then-read claim on the empty database. -/
theorem C4_create_witness :
    ∃ db' doc, create_document db0 "n" (some "reg") none = Except.ok (db', doc)
      ∧ doc.document_name = "n" ∧ doc.document_region = some "reg"
      ∧ doc.document_intro = none
      ∧ get_document_by_id db' doc.document_id = some doc :=
  C4_create_then_get db0 "n" (some "reg") none (by simp [db0]) (by decide)

/-- After replacing the row found by primary key, a lookup on that key
finds the replacement. -/
theorem find?_map_update (l : List DocumentRow) (did : Nat) (doc doc' : DocumentRow)
    (hfind : l.find? (fun d => d.document_id == did) = some doc)
    (hid : doc'.document_id = doc.document_id) :
    (l.map (fun d => if d.document_id == did then doc' else d)).find?
        (fun d => d.document_id == did) = some doc' := by
  induction l with
  | nil => simp at hfind
  | cons h t ih =>
    cases hh : (h.document_id == did) with
    | true =>
      simp only [List.find?_cons, hh, cond_true, Option.some.injEq] at hfind
      have hdid : (doc'.document_id == did) = true := by
        rw [beq_iff_eq, hid, ← hfind]
        rwa [beq_iff_eq] at hh
      simp only [List.map_cons]
      rw [if_pos hh]
      simp only [List.find?_cons, hdid, cond_true]
    | false =>
      simp only [List.find?_cons, hh, cond_false] at hfind
      simp only [List.map_cons]
      rw [if_neg (by simp [hh])]
      simp only [List.find?_cons, hh, cond_false]
      exact ih hfind

/-- Replacing the row with primary key `did` leaves lookups on every other
key unchanged. -/
theorem find?_map_update_other (l : List DocumentRow) (did k : Nat) (doc' : DocumentRow)
    (hk : ¬ k = did) (hid : doc'.document_id = did) :
    (l.map (fun d => if d.document_id == did then doc' else d)).find?
        (fun d => d.document_id == k) = l.find? (fun d => d.document_id == k) := by
  induction l with
  | nil => simp
  | cons h t ih =>
    cases hh : (h.document_id == did) with
    | true =>
      simp only [List.map_cons]
      rw [if_pos hh]
      have hhk : (h.document_id == k) = false := by
        rw [beq_eq_false_iff_ne]
        rw [beq_iff_eq] at hh
        rw [hh]
        exact fun e => hk e.symm
      have hdk : (doc'.document_id == k) = false := by
        rw [beq_eq_false_iff_ne, hid]
        exact fun e => hk e.symm
      simp only [List.find?_cons, hhk, hdk, cond_false]
      exact ih
    | false =>
      simp only [List.map_cons]
      rw [if_neg (by simp [hh])]
      cases hk2 : (h.document_id == k) with
      | true => simp only [List.find?_cons, hk2, cond_true]
      | false =>
        simp only [List.find?_cons, hk2, cond_false]
        exact ih

/-- Claim C5: a field argument passed as `None` leaves the stored field
unchanged while supplied fields are overwritten, the updated row is
what a lookup on the id then returns, other ids read back unchanged,
and an id that does not exist yields the not-found signal (the source's
`None` return) with the state untouched. -/
theorem C5_update_document (db : DB) (did : Nat) (name region intro : Option String) :
    (get_document_by_id db did = none →
      update_document db did name region intro = Except.ok (db, none))
    ∧ (∀ doc db' doc', get_document_by_id db did = some doc →
        update_document db did name region intro = Except.ok (db', some doc') →
        (name = none → doc'.document_name = doc.document_name)
        ∧ (region = none → doc'.document_region = doc.document_region)
        ∧ (intro = none → doc'.document_intro = doc.document_intro)
        ∧ doc'.document_id = doc.document_id
        ∧ doc'.document_name = name.getD doc.document_name
        ∧ get_document_by_id db' did = some doc'
        ∧ (∀ k, ¬ k = did → get_document_by_id db' k = get_document_by_id db k)) := by
  constructor
  · intro h
    rw [get_document_by_id] at h
    rw [update_document, h]
  · intro doc db' doc' hget hupd
    rw [get_document_by_id] at hget
    rw [update_document, hget] at hupd
    simp only [] at hupd
    by_cases hconf : (db.documents.any (fun d => !(d.document_id == did) && d.document_name == (applyDocUpdate doc name region intro).document_name)) = true
    · rw [if_pos hconf] at hupd
      exact absurd hupd (by simp)
    · rw [if_neg hconf] at hupd
      simp only [Except.ok.injEq, Prod.mk.injEq, Option.some.injEq] at hupd
      obtain ⟨hdb, hdoc⟩ := hupd
      have hdocid : doc.document_id = did := by
        have := List.find?_some hget
        rwa [beq_iff_eq] at this
      subst hdb
      subst hdoc
      refine ⟨?_, ?_, ?_, rfl, rfl, ?_, ?_⟩
      · intro h; subst h; simp [applyDocUpdate]
      · intro h; subst h; simp [applyDocUpdate]
      · intro h; subst h; simp [applyDocUpdate]
      · rw [get_document_by_id]
        exact find?_map_update db.documents did doc _ hget rfl
      · intro k hk
        rw [get_document_by_id, get_document_by_id]
        exact find?_map_update_other db.documents did k _ hk hdocid

/-- Concrete run of the partial-update claim on `dbDoc`: updating a
missing id is the untouched not-found signal, and updating only the
region keeps the stored name while the updated row reads back. -/
theorem C5_update_witness :
    (update_document dbDoc 5 none none none = Except.ok (dbDoc, none))
    ∧ docRow1R.document_name = docRow1.document_name
    ∧ get_document_by_id dbDocR 1 = some docRow1R := by
  refine ⟨(C5_update_document dbDoc 5 none none none).1 (by decide), ?_, ?_⟩
  · have h := (C5_update_document dbDoc 1 none (some "R") none).2 docRow1
      dbDocR docRow1R rfl rfl
    exact h.1 rfl
  · have h := (C5_update_document dbDoc 1 none (some "R") none).2 docRow1
      dbDocR docRow1R rfl rfl
    exact h.2.2.2.2.2.1

/-- Claim C6: `delete_document` returns `true` exactly when a document
with the id existed; the deleted id no longer reads back afterwards;
and on a missing id it returns `false` with the state untouched and no
error raised (the embedding is total). -/
theorem C6_delete_document (db : DB) (did : Nat) :
    ((delete_document db did).2 = true ↔ (get_document_by_id db did).isSome = true)
    ∧ (get_document_by_id db did = none → delete_document db did = (db, false))
    ∧ ((delete_document db did).2 = true →
        get_document_by_id (delete_document db did).1 did = none) := by
  cases hf : db.documents.find? (fun d => d.document_id == did) with
  | none =>
    have hd : delete_document db did = (db, false) := by
      unfold delete_document
      rw [hf]
    have hg : get_document_by_id db did = none := by
      rw [get_document_by_id, hf]
    rw [hd, hg]
    exact ⟨by simp, fun _ => rfl, by simp⟩
  | some d =>
    have hg : get_document_by_id db did = some d := by
      rw [get_document_by_id, hf]
    have hsnd : (delete_document db did).2 = true := by
      unfold delete_document
      rw [hf]
    have hdocs : (delete_document db did).1.documents
        = db.documents.filter (fun x => !(x.document_id == did)) := by
      unfold delete_document
      rw [hf]
    refine ⟨by rw [hsnd, hg]; simp, ?_, ?_⟩
    · intro h
      rw [hg] at h
      exact absurd h (by simp)
    · intro _
      rw [get_document_by_id, hdocs, List.find?_eq_none]
      intro x hx
      rw [List.mem_filter] at hx
      have hx2 := hx.2
      simp only [Bool.not_eq_true'] at hx2
      simp [hx2]

/-- Concrete run of the delete claim: deleting from the empty database is
a no-op returning `false`, and deleting the stored document 1 returns
`true` exactly because it exists. -/
theorem C6_delete_witness :
    delete_document db0 7 = (db0, false)
    ∧ ((delete_document dbDoc 1).2 = true ↔ (get_document_by_id dbDoc 1).isSome = true) :=
  ⟨(C6_delete_document db0 7).2.1 rfl, (C6_delete_document dbDoc 1).1⟩

/-- Claim C7: adding a document with a blank (whitespace-only) name flashes
the validation error and leaves the state unchanged — no row is
inserted; adding one whose stripped name equals a stored document's
name flashes the duplicate-name conflict and likewise inserts
nothing. -/
theorem C7_add_document (db : DB) (nameF regionF introF : String) :
    (pyStrip nameF = "" →
        add_document db nameF regionF introF = (db, Resp.validationError))
    ∧ (¬ pyStrip nameF = "" →
        (∃ d ∈ db.documents, d.document_name = pyStrip nameF) →
        add_document db nameF regionF introF = (db, Resp.conflict)) := by
  constructor
  · intro h
    have hb : (pyStrip nameF == "") = true := beq_iff_eq.mpr h
    rw [add_document, if_pos hb]
  · intro hne hdup
    have hb : ¬ ((pyStrip nameF == "") = true) := by
      rw [beq_iff_eq]
      exact hne
    obtain ⟨d, hd, hname⟩ := hdup
    have hany : db.documents.any (fun d => d.document_name == pyStrip nameF) = true :=
      List.any_eq_true.mpr ⟨d, hd, beq_iff_eq.mpr hname⟩
    rw [add_document, if_neg hb, if_pos hany]

/-- Concrete run of the add-document claim: a whitespace-only name is
rejected without insertion, and re-adding the stored name `d1` is
rejected as a duplicate without insertion. -/
theorem C7_add_witness :
    add_document db0 " " "r" "i" = (db0, Resp.validationError)
    ∧ add_document dbDoc "d1" "r" "i" = (dbDoc, Resp.conflict) :=
  ⟨(C7_add_document db0 " " "r" "i").1 (by decide),
   (C7_add_document dbDoc "d1" "r" "i").2 (by decide) (by decide)⟩

/-- Claim C8 fails as stated: with no note 7 stored, editing or deleting
note 7 does not fail with a distinct NotFound — both handlers return
exactly the 403 response `(db, forbidden403)`, the same response the
ownership-mismatch case produces (`dbNote` holds note 1 owned by
user 1, acted on here by user 2). -/
theorem C8_counterexample :
    edit_note db0 1 7 "c" "" = (db0, Resp.forbidden403)
    ∧ remove_note db0 1 7 = (db0, Resp.forbidden403)
    ∧ edit_note dbNote 2 1 "c" "" = (dbNote, Resp.forbidden403)
    ∧ remove_note dbNote 2 1 = (dbNote, Resp.forbidden403) := by
  refine ⟨by decide, by decide, by decide, by decide⟩

/-- Claim C8 (amended): a note mutation or deletion by a user who is not
the owner fails with the 403 response and leaves the state unchanged;
a mutation or deletion of a missing note fails with that same 403
response (not a distinct NotFound) and likewise changes nothing. -/
theorem C8_note_ownership (db : DB) (uid nid : Nat) (contentF tagsF : String)
    (hc : ¬ pyStrip contentF = "") :
    (db.notes.find? (fun n => n.note_id == nid) = none →
        edit_note db uid nid contentF tagsF = (db, Resp.forbidden403)
        ∧ remove_note db uid nid = (db, Resp.forbidden403))
    ∧ (∀ note, db.notes.find? (fun n => n.note_id == nid) = some note →
        ¬ note.user_id = uid →
        edit_note db uid nid contentF tagsF = (db, Resp.forbidden403)
        ∧ remove_note db uid nid = (db, Resp.forbidden403)) := by
  have hcb : ¬ ((pyStrip contentF == "") = true) := by
    rw [beq_iff_eq]
    exact hc
  constructor
  · intro hf
    constructor
    · rw [edit_note, if_neg hcb, hf]
    · rw [remove_note, hf]
  · intro note hf hown
    have hob : (note.user_id == uid) = false := by
      rw [beq_eq_false_iff_ne]
      exact hown
    constructor
    · rw [edit_note, if_neg hcb, hf]
      simp only [hob, Bool.not_false, if_true]
    · rw [remove_note, hf]
      simp only [hob, Bool.not_false, if_true]

/-- Concrete run of the amended note-ownership claim on `dbNote`. -/
theorem C8_note_witness :
    (edit_note dbNote 1 9 "c" "" = (dbNote, Resp.forbidden403)
      ∧ remove_note dbNote 1 9 = (dbNote, Resp.forbidden403))
    ∧ (edit_note dbNote 2 1 "cc" "" = (dbNote, Resp.forbidden403)
      ∧ remove_note dbNote 2 1 = (dbNote, Resp.forbidden403)) :=
  ⟨(C8_note_ownership dbNote 1 9 "c" "" (by decide)).1 (by decide),
   (C8_note_ownership dbNote 2 1 "cc" "" (by decide)).2 noteRow1 (by decide) (by decide)⟩

/-- Claim C9 fails as stated: the two supplied password fields differ
(`"abcdef "` with a trailing space, against `"abcdef"`), yet the
handler strips both before comparing, so registration succeeds and a
user row is created. -/
theorem C9_counterexample :
    ¬ ("abcdef " : String) = "abcdef"
    ∧ (register db0 "u" "e@x" "abcdef " "abcdef" "" "").2 = Resp.success
    ∧ (register db0 "u" "e@x" "abcdef " "abcdef" "" "").1.users.length = 1 := by
  refine ⟨by decide, by decide, by decide⟩

/-- Claim C9 (amended): if the stripped password has fewer than 6
characters, or the two password fields differ after stripping
surrounding whitespace, registration fails with a validation message
and the state is unchanged — no user row is created. -/
theorem C9_register_validation (db : DB) (u e p p2 q a : String)
    (h : (pyStrip p).data.length < 6 ∨ ¬ pyStrip p = pyStrip p2) :
    register db u e p p2 q a = (db, Resp.validationError) := by
  rw [register]
  by_cases h1 : ((pyStrip u == "") || (pyStrip e == "") || (pyStrip p == "")) = true
  · rw [if_pos h1]
  · rw [if_neg h1]
    by_cases h2 : (pyStrip p == pyStrip p2) = true
    · have hlen : (pyStrip p).data.length < 6 := by
        rcases h with hl | hne
        · exact hl
        · exact absurd (by rwa [beq_iff_eq] at h2) hne
      rw [if_neg (by simp [h2]), if_pos hlen]
    · rw [if_pos (by simp [h2])]

/-- Concrete run of the amended registration claim: a 3-character password
is rejected with a validation message and no inserted row. -/
theorem C9_register_witness :
    register db0 "u2" "e2" "abc" "abc" "" "" = (db0, Resp.validationError) :=
  C9_register_validation db0 "u2" "e2" "abc" "abc" "" "" (Or.inl (by decide))

/-- Claim C10: the count equals the number of stored resources whose
`document_id` matches, it is never negative, and it is 0 (not an error
or null) when no resource carries the id — in particular for an id
with no document at all. -/
theorem C10_count_resources (db : DB) (did : Nat) :
    count_resources_by_document db did
      = ((db.resources.countP (fun r => r.document_id == did) : Nat) : Int)
    ∧ 0 ≤ count_resources_by_document db did
    ∧ ((∀ r ∈ db.resources, ¬ r.document_id = did) →
        count_resources_by_document db did = 0) := by
  have hcp : db.resources.countP (fun r => r.document_id == did)
      = (db.resources.filter (fun r => r.document_id == did)).length :=
    List.countP_eq_length_filter _ _
  refine ⟨?_, ?_, ?_⟩
  · rw [count_resources_by_document]
    by_cases h : ((db.resources.filter (fun r => r.document_id == did)).length : Int) = 0
    · rw [if_pos h, hcp]
      exact h.symm
    · rw [if_neg h, hcp]
  · rw [count_resources_by_document]
    by_cases h : ((db.resources.filter (fun r => r.document_id == did)).length : Int) = 0
    · rw [if_pos h]
    · rw [if_neg h]
      exact Int.natCast_nonneg _
  · intro h
    have hfil : db.resources.filter (fun r => r.document_id == did) = [] := by
      rw [List.filter_eq_nil_iff]
      intro r hr
      simp only [beq_iff_eq]
      exact h r hr
    rw [count_resources_by_document, hfil]
    simp

/-- Concrete run of the count claim: an id with no resources counts 0. -/
theorem C10_count_witness :
    count_resources_by_document db0 3 = 0 :=
  (C10_count_resources db0 3).2.2 (by decide)

end DocDB
